import Mathlib

/-!
Verification of the solar-position core of `noaa_clock.cpp`.

The C code computes with IEEE doubles; the embedding idealises them as real
numbers.  The source's constant `dpi = 2.0 * 3.1415926535897932` is the
double approximation of 2*pi and is idealised as the real `2 * π`.
C's `fmod` truncates the quotient toward zero, so its result carries the
sign of the dividend; `cFmod` below reproduces that.
-/

open Real

set_option maxRecDepth 16000

-- Global constant `dpi` (2*pi) used by the degree/radian helpers.

noncomputable def dpi : ℝ := 2 * Real.pi

-- `d2r` : degrees to radians (source function d2r).

noncomputable def d2r (d : ℝ) : ℝ := dpi * d / 360

-- `r2d` : radians to degrees (source function r2d).

noncomputable def r2d (r : ℝ) : ℝ := 360 * r / dpi

-- C truncation toward zero, and C's fmod on reals.

noncomputable def ctrunc (r : ℝ) : ℤ := if 0 ≤ r then ⌊r⌋ else ⌈r⌉

noncomputable def cFmod (x y : ℝ) : ℝ := x - y * (ctrunc (x / y) : ℝ)

-- C's atan2 (only feeds the right-ascension output field).

noncomputable def atan2 (y x : ℝ) : ℝ :=
  if 0 < x then Real.arctan (y / x)
  else if x < 0 then
    (if 0 ≤ y then Real.arctan (y / x) + Real.pi else Real.arctan (y / x) - Real.pi)
  else if 0 < y then Real.pi / 2
  else if y < 0 then -(Real.pi / 2)
  else 0

-- The argument of the zenith-angle acos (source line 459), named for reuse.

noncomputable def zcosArg (lat decl hrangle : ℝ) : ℝ :=
  Real.sin (d2r lat) * Real.sin (d2r decl) +
    Real.cos (d2r lat) * Real.cos (d2r decl) * Real.cos (d2r hrangle)

-- The argument of the azimuth acos, textually repeated in both branches of
-- the source (lines 472 and 474), named once here.

noncomputable def azcosArg (lat zangle decl : ℝ) : ℝ :=
  (Real.sin (d2r lat) * Real.cos (d2r zangle) - Real.sin (d2r decl)) /
    (Real.cos (d2r lat) * Real.sin (d2r zangle))

-- Atmospheric refraction in arc-seconds, the nested conditional of source
-- lines 461-468 (before the division by 3600).

noncomputable def refractRaw (e : ℝ) : ℝ :=
  if 85 < e then 0
  else if 5 < e then
    58.1 / Real.tan (d2r e) - 0.07 / (Real.tan (d2r e)) ^ 3 +
      0.000086 / (Real.tan (d2r e)) ^ 5
  else if (-0.575 : ℝ) < e then
    1735 + e * (-518.2 + e * (103.4 + e * (-12.79 + e * 0.711)))
  else -20.772 / Real.tan (d2r e)

-- The global NOAA variable block (source lines 88-122): the five inputs of
-- the solar computation, the two observer fields, and the derived outputs.

structure NoaaState where
  lat_deg : ℝ
  long_deg : ℝ
  date_d : ℝ
  wtime_day : ℝ
  dst_hr : ℝ
  timezone_hr : ℝ
  my_timezone : ℝ
  jday : ℝ
  jcen : ℝ
  gmlong_deg : ℝ
  gmanom_deg : ℝ
  eccent : ℝ
  eqofctr : ℝ
  truelong_deg : ℝ
  trueanom_deg : ℝ
  radvect_au : ℝ
  applong_deg : ℝ
  moe_deg : ℝ
  ocorr_deg : ℝ
  rtasc_deg : ℝ
  decl_deg : ℝ
  var_y : ℝ
  eqoftime_min : ℝ
  ha_rise_deg : ℝ
  noon_lst : ℝ
  rise_lst : ℝ
  set_lst : ℝ
  lightdur_min : ℝ
  soltime_min : ℝ
  hrangle_deg : ℝ
  zangle_deg : ℝ
  elev_deg : ℝ
  refract_deg : ℝ
  elevc_deg : ℝ
  az_deg : ℝ

-- `noaa_eq` (source lines 429-475): the NOAA solar equations, transcribed
-- assignment by assignment as a state transformer on the global block.

noncomputable def noaa_eq (s : NoaaState) : NoaaState :=
  let jday := s.date_d + 2415018.5 + s.wtime_day - s.timezone_hr / 24
  let jcen := (jday - 2451545) / 36525
  let gmlong_deg := cFmod (280.46646 + jcen * (36000.76983 + jcen * 0.0003032)) 360
  let gmanom_deg := 357.52911 + jcen * (35999.05029 - 0.0001537 * jcen)
  let eccent := 0.016708634 - jcen * (0.000042037 + 0.0000001267 * jcen)
  let eqofctr := Real.sin (d2r gmanom_deg) * (1.914602 - jcen * (0.004817 + 0.000014 * jcen))
    + Real.sin (d2r (2 * gmanom_deg)) * (0.019993 - 0.000101 * jcen)
    + Real.sin (d2r (3 * gmanom_deg)) * 0.000289
  let truelong_deg := gmlong_deg + eqofctr
  let trueanom_deg := gmanom_deg + eqofctr
  let radvect_au := (1.000001018 * (1 - eccent * eccent)) / (1 + eccent * Real.cos (d2r trueanom_deg))
  let applong_deg := truelong_deg - 0.00569 - 0.00478 * Real.sin (d2r (125.04 - 1934.136 * jcen))
  let moe_deg := 23 + (26 + ((21.448 - jcen * (46.815 + jcen * (0.00059 - jcen * 0.001813)))) / 60) / 60
  let ocorr_deg := moe_deg + 0.00256 * Real.cos (d2r (125.04 - 1934.136 * jcen))
  let rtasc_deg := r2d (atan2 (Real.cos (d2r applong_deg)) (Real.cos (d2r ocorr_deg) * Real.sin (d2r applong_deg)))
  let decl_deg := r2d (Real.arcsin (Real.sin (d2r ocorr_deg) * Real.sin (d2r applong_deg)))
  let var_y := Real.tan (d2r (ocorr_deg / 2)) * Real.tan (d2r (ocorr_deg / 2))
  let eqoftime_min := 4 * r2d (var_y * Real.sin (2 * d2r gmlong_deg)
    - 2 * eccent * Real.sin (d2r gmanom_deg)
    + 4 * eccent * var_y * Real.sin (d2r gmanom_deg) * Real.cos (2 * d2r gmlong_deg)
    - 0.5 * var_y * var_y * Real.sin (4 * d2r gmlong_deg)
    - 1.25 * eccent * eccent * Real.sin (2 * d2r gmanom_deg))
  let ha_rise_deg := r2d (Real.arccos (Real.cos (d2r 90.833) / (Real.cos (d2r s.lat_deg) * Real.cos (d2r decl_deg)) - Real.tan (d2r s.lat_deg) * Real.tan (d2r decl_deg)))
  let noon_lst := (720 - 4 * s.long_deg - eqoftime_min + s.timezone_hr * 60) / 1440
  let rise_lst := noon_lst - ha_rise_deg * 4 / 1440
  let set_lst := noon_lst + ha_rise_deg * 4 / 1440
  let lightdur_min := 8 * ha_rise_deg
  let soltime_min := cFmod (s.wtime_day * 1440 + eqoftime_min + 4 * s.long_deg - 60 * s.timezone_hr) 1440
  let hrangle_deg := if soltime_min / 4 < 0 then soltime_min / 4 + 180 else soltime_min / 4 - 180
  let zangle_deg := r2d (Real.arccos (zcosArg s.lat_deg decl_deg hrangle_deg))
  let elev_deg := 90 - zangle_deg
  let refract_deg := refractRaw elev_deg / 3600
  let elevc_deg := elev_deg + refract_deg
  let az_deg :=
    if 0 < hrangle_deg then
      cFmod (r2d (Real.arccos (azcosArg s.lat_deg zangle_deg decl_deg)) + 180) 360
    else
      cFmod (540 - r2d (Real.arccos (azcosArg s.lat_deg zangle_deg decl_deg))) 360
  { s with
    jday := jday, jcen := jcen, gmlong_deg := gmlong_deg, gmanom_deg := gmanom_deg,
    eccent := eccent, eqofctr := eqofctr, truelong_deg := truelong_deg,
    trueanom_deg := trueanom_deg, radvect_au := radvect_au, applong_deg := applong_deg,
    moe_deg := moe_deg, ocorr_deg := ocorr_deg, rtasc_deg := rtasc_deg,
    decl_deg := decl_deg, var_y := var_y, eqoftime_min := eqoftime_min,
    ha_rise_deg := ha_rise_deg, noon_lst := noon_lst, rise_lst := rise_lst,
    set_lst := set_lst, lightdur_min := lightdur_min, soltime_min := soltime_min,
    hrangle_deg := hrangle_deg, zangle_deg := zangle_deg, elev_deg := elev_deg,
    refract_deg := refract_deg, elevc_deg := elevc_deg, az_deg := az_deg }

-- A zero-initialised global block (C statics start at zero).

noncomputable def s0 : NoaaState :=
  ⟨0, 0, 0, 0, 0, 0, 0, 0, 0, 0, 0, 0, 0, 0, 0, 0, 0, 0, 0, 0, 0, 0, 0, 0,
   0, 0, 0, 0, 0, 0, 0, 0, 0, 0, 0⟩

-- One row of the per-minute tables filled by `load` (source arrays
-- solarmin, elev, elevc, azim, sunlong).

structure TableEntry where
  solarmin : ℝ
  elev : ℝ
  elevc : ℝ
  azim : ℝ
  sunlong : ℝ

-- The state used for minute `i` of the table: the loop body of `load`
-- sets `wtime_day = i / 1440` and runs `noaa_eq`.

noncomputable def tableState (s : NoaaState) (i : ℕ) : NoaaState :=
  noaa_eq { s with wtime_day := (i : ℝ) / 1440 }

-- `load` (source lines 507-518): one `noaa_eq` run per minute of the day,
-- storing the five result fields at index i.

noncomputable def load (s : NoaaState) : List TableEntry :=
  (List.range 1440).map fun i =>
    { solarmin := (tableState s i).soltime_min
      elev := (tableState s i).elev_deg
      elevc := (tableState s i).elevc_deg
      azim := (tableState s i).az_deg
      sunlong := (tableState s i).truelong_deg }

-- Calendar model for Qt's QDate (proleptic Gregorian).  `daysFromCivil`
-- counts days since 0000-03-01 by the standard civil-calendar algorithm;
-- `dayOfWeek` matches QDate's convention 1 = Monday .. 7 = Sunday
-- (anchored at 1970-01-01, a Thursday).

structure QDate where
  year : ℕ
  month : ℕ
  day : ℕ
deriving DecidableEq

def daysFromCivil (y m d : ℕ) : ℕ :=
  let y2 := if m ≤ 2 then y - 1 else y
  let era := y2 / 400
  let yoe := y2 - era * 400
  let mp := if 2 < m then m - 3 else m + 9
  let doy := (153 * mp + 2) / 5 + (d - 1)
  let doe := yoe * 365 + yoe / 4 - yoe / 100 + doy
  era * 146097 + doe

def dayOfWeek (y m d : ℕ) : ℕ := (daysFromCivil y m d + 2) % 7 + 1

-- QDate's chronological order, lexicographic on (year, month, day); for
-- valid dates it coincides with comparison of Julian day numbers.

def dateLt (a b : QDate) : Prop :=
  a.year < b.year ∨
    (a.year = b.year ∧ (a.month < b.month ∨ (a.month = b.month ∧ a.day < b.day)))

instance (a b : QDate) : Decidable (dateLt a b) :=
  inferInstanceAs (Decidable (a.year < b.year ∨
    (a.year = b.year ∧ (a.month < b.month ∨ (a.month = b.month ∧ a.day < b.day)))))

-- The backward search of `setdst_eu` for the last Sunday of a month:
-- start at the 31st and decrement while the weekday is not Sunday.  The
-- fuel of 7 is enough since any 7 consecutive days contain a Sunday.

def lastSundayDayAux (y m : ℕ) : ℕ → ℕ → ℕ
  | n, 0 => n
  | n, k + 1 => if dayOfWeek y m n = 7 then n else lastSundayDayAux y m (n - 1) k

def lastSundayDay (y m : ℕ) : ℕ := lastSundayDayAux y m 31 7

def lastSundayDate (y m : ℕ) : QDate := ⟨y, m, lastSundayDay y m⟩

-- `setdst_eu` (source lines 611-630): the European DST offset.  `today`
-- is QDate::currentDate() and `hour` the observer-adjusted local hour;
-- the four sequential `if` statements are modelled in order.

def setdst_eu (today : QDate) (hour : ℕ) : ℕ :=
  let dmar := lastSundayDate today.year 3
  let doct := lastSundayDate today.year 10
  let n1 := 0
  let n2 := if today = dmar ∧ 3 < hour then 1 else n1
  let n3 := if dateLt dmar today then 1 else n2
  let n4 := if today = doct ∧ 3 < hour then 0 else n3
  let n5 := if dateLt doct today then 0 else n4
  n5

-- Claim-side predicate: the DST-active condition exactly as the spec
-- states it, with the March-transition threshold at local hour 1.

def specDstActive (today : QDate) (hour : ℕ) : Prop :=
  (dateLt (lastSundayDate today.year 3) today ∧
     dateLt today (lastSundayDate today.year 10)) ∨
  (today = lastSundayDate today.year 3 ∧ 1 < hour)

instance (today : QDate) (hour : ℕ) : Decidable (specDstActive today hour) :=
  inferInstanceAs (Decidable (_ ∨ (_ ∧ 1 < hour)))

-- Case-insensitive string comparison: strcmpi folds ASCII letters only.

def lowerChar (c : Char) : Char :=
  if 'A' ≤ c ∧ c ≤ 'Z' then Char.ofNat (c.toNat + 32) else c

def strieq (a b : String) : Bool :=
  a.data.map lowerChar == b.data.map lowerChar

-- One line of the record-list file noaa_clock.cnf: blank, the `*`
-- sentinel, or a record `name lat lon timezone [dstTag]` (the fifth field
-- is optional; sscanf leaves the previous dststr in place when absent).

inductive CnfLine where
  | blank : CnfLine
  | sentinel : CnfLine
  | record : String → ℝ → ℝ → ℝ → Option String → CnfLine

-- The out-parameters (*la, *lo, *tz) of setcoord, threaded as a value.

structure Coord where
  la : ℝ
  lo : ℝ
  tz : ℝ

-- The file-scanning loop of `setcoord` (source lines 702-715): every
-- record line overwrites *la,*lo,*tz via sscanf before the name check; a
-- match adds the DST offset when the current dststr is "EU" and stops;
-- blank lines are skipped and a sentinel line stops the scan.

noncomputable def scanCnf (dstOff : ℝ) (loc : String) :
    List CnfLine → Coord → Option String → Coord
  | [], st, _ => st
  | CnfLine.blank :: rest, st, ds => scanCnf dstOff loc rest st ds
  | CnfLine.sentinel :: _, st, _ => st
  | CnfLine.record n nla nlo ntz nds :: rest, _, ds =>
      let ds2 := match nds with
        | some s => some s
        | none => ds
      if strieq n loc then
        if (match ds2 with | some s => strieq s "EU" | none => false) then
          ⟨nla, nlo, ntz + dstOff⟩
        else ⟨nla, nlo, ntz⟩
      else scanCnf dstOff loc rest ⟨nla, nlo, ntz⟩ ds2

-- Result of `setcoord`: the returned bool plus the final out-parameters.

structure ResolveResult where
  found : Bool
  la : ℝ
  lo : ℝ
  tz : ℝ

-- One entry of the built-in fallback cascade (source lines 720-806):
-- accepted names, coordinates, base timezone, and whether the EU DST
-- offset is added.

structure BuiltinEntry where
  names : List String
  bla : ℝ
  blo : ℝ
  btz : ℝ
  eu : Bool

noncomputable def builtinTable : List BuiltinEntry :=
  [ ⟨["Helsinki"], 60.16, 24.83, 2, true⟩,
    ⟨["Riihimäki"], 60.739, 24.772, 2, true⟩,
    ⟨["Tampere"], 61.498, 23.761, 2, true⟩,
    ⟨["Ylöjärvi"], 61.55, 23.583, 2, true⟩,
    ⟨["Rovaniemi"], 66.5, 25.733, 2, true⟩,
    ⟨["Inari"], 68.905, 27.03, 2, true⟩,
    ⟨["Utsjoki"], 69.9, 27.017, 2, true⟩,
    ⟨["Tukholma", "Stockholm"], 59.329, 18.069, 1, true⟩,
    ⟨["Vargön"], 58.35, 12.4, 1, true⟩,
    ⟨["Reykjavik"], 64.135, -21.895, 0, false⟩,
    ⟨["Longyearbyen"], 78.22, 15.65, 1, true⟩,
    ⟨["Tallinna", "Tallinn"], 59.437, 24.745, 2, true⟩,
    ⟨["Moskova", "Moscow"], 55.75, 37.617, 2, true⟩,
    ⟨["Lontoo", "London"], 51.5, -0.126, 0, true⟩,
    ⟨["Hampuri", "Hamburg"], 53.553, 9.992, 1, true⟩,
    ⟨["Rooma", "Roma"], 41.895, 12.482, 1, true⟩,
    ⟨["Tokio", "Tokyo"], 35.683, 139.767, 9, false⟩,
    ⟨["Teheran", "Tehran"], 35.696, 51.423, 3.5, false⟩ ]

noncomputable def lookupBuiltin (dstOff : ℝ) (st : Coord) :
    List BuiltinEntry → String → ResolveResult
  | [], _ => ⟨false, st.la, st.lo, st.tz⟩
  | e :: rest, loc =>
      if e.names.any (fun n => strieq n loc) then
        ⟨true, e.bla, e.blo, e.btz + (if e.eu then dstOff else 0)⟩
      else lookupBuiltin dstOff st rest loc

-- `setcoord` (source lines 693-810).  When the record-list file exists the
-- function returns true after the scan regardless of whether any line
-- matched (source line 716); only when the file is missing does it fall
-- back to the built-in cascade, and only then can it return false.

noncomputable def setcoord (dstOff : ℝ) (file : Option (List CnfLine))
    (loc : String) (la lo tz : ℝ) : ResolveResult :=
  match file with
  | some lines =>
      let st := scanCnf dstOff loc lines ⟨la, lo, tz⟩ none
      ⟨true, st.la, st.lo, st.tz⟩
  | none => lookupBuiltin dstOff ⟨la, lo, tz⟩ builtinTable loc

-- The location-name branch of `main` (source lines 867-886): on a failed
-- resolution it prints the error, the usage text and the known locations,
-- and returns 1; otherwise it proceeds (exit code 0 path).  The three
-- coordinate globals are zero-initialised statics.

structure MainOutcome where
  exitCode : ℕ
  printedErrorUsageLocs : Bool
deriving DecidableEq

noncomputable def mainWithLoc (dstOff : ℝ) (file : Option (List CnfLine))
    (loc : String) : MainOutcome :=
  if (setcoord dstOff file loc 0 0 0).found then ⟨0, false⟩ else ⟨1, true⟩

-- A record list containing a single record that matches none of the names
-- used in the claims.

noncomputable def cnfOulu : List CnfLine := [CnfLine.record "Oulu" 65 25.5 2 none]

-- Claim-side refraction: the piecewise selection exactly as the spec
-- words it, with both interval bounds written out in each guard.

noncomputable def specRefract (e : ℝ) : ℝ :=
  if 85 < e then 0
  else if 5 < e ∧ e ≤ 85 then
    58.1 / Real.tan (d2r e) - 0.07 / (Real.tan (d2r e)) ^ 3 +
      0.000086 / (Real.tan (d2r e)) ^ 5
  else if (-0.575 : ℝ) < e ∧ e ≤ 5 then
    1735 + e * (-518.2 + e * (103.4 + e * (-12.79 + e * 0.711)))
  else -20.772 / Real.tan (d2r e)

-- The equation-of-time value at the all-zero input state.  It does not
-- depend on the longitude field, which the counterexample states below
-- exploit to pin the pre-mod solar-time argument to an exact value.

noncomputable def eqot0 : ℝ := (noaa_eq s0).eqoftime_min

-- Input whose pre-mod solar-time argument is exactly -720 minutes.

noncomputable def sNegLong : NoaaState := { s0 with long_deg := (-720 - eqot0) / 4 }

-- Input whose pre-mod solar-time argument is exactly 0 minutes.

noncomputable def sZeroSol : NoaaState := { s0 with long_deg := -eqot0 / 4 }

-- Input at the north pole, where both spherical acos arguments are
-- trivially inside the arccos domain.

noncomputable def s90 : NoaaState := { s0 with lat_deg := 90 }

-- Definitional projections of `noaa_eq`, used throughout the proofs.

lemma soltime_formula (s : NoaaState) :
    (noaa_eq s).soltime_min =
      cFmod (s.wtime_day * 1440 + (noaa_eq s).eqoftime_min + 4 * s.long_deg - 60 * s.timezone_hr) 1440 := rfl

lemma hrangle_formula (s : NoaaState) :
    (noaa_eq s).hrangle_deg =
      if (noaa_eq s).soltime_min / 4 < 0 then (noaa_eq s).soltime_min / 4 + 180
      else (noaa_eq s).soltime_min / 4 - 180 := rfl

lemma zangle_formula (s : NoaaState) :
    (noaa_eq s).zangle_deg =
      r2d (Real.arccos (zcosArg s.lat_deg (noaa_eq s).decl_deg (noaa_eq s).hrangle_deg)) := rfl

lemma elev_formula (s : NoaaState) :
    (noaa_eq s).elev_deg = 90 - (noaa_eq s).zangle_deg := rfl

lemma refract_formula (s : NoaaState) :
    (noaa_eq s).refract_deg = refractRaw ((noaa_eq s).elev_deg) / 3600 := rfl

lemma elevc_formula (s : NoaaState) :
    (noaa_eq s).elevc_deg = (noaa_eq s).elev_deg + (noaa_eq s).refract_deg := rfl

lemma az_formula (s : NoaaState) :
    (noaa_eq s).az_deg =
      if 0 < (noaa_eq s).hrangle_deg then
        cFmod (r2d (Real.arccos (azcosArg s.lat_deg (noaa_eq s).zangle_deg (noaa_eq s).decl_deg)) + 180) 360
      else
        cFmod (540 - r2d (Real.arccos (azcosArg s.lat_deg (noaa_eq s).zangle_deg (noaa_eq s).decl_deg))) 360 := rfl

lemma eqoftime_indep_long (s : NoaaState) (L : ℝ) :
    (noaa_eq { s with long_deg := L }).eqoftime_min = (noaa_eq s).eqoftime_min := rfl

-- Bounds for C's fmod: the result carries the sign of the dividend and its
-- magnitude stays below the (positive) divisor.

lemma cFmod_bounds (x y : ℝ) (hy : 0 < y) : -y < cFmod x y ∧ cFmod x y < y := by
  unfold cFmod ctrunc
  have hy' : y ≠ 0 := ne_of_gt hy
  have hxy : y * (x / y) = x := by field_simp
  split_ifs with h
  · have h1 : ((⌊x / y⌋ : ℝ)) ≤ x / y := Int.floor_le _
    have h2 : x / y < (⌊x / y⌋ : ℝ) + 1 := Int.lt_floor_add_one _
    have he : x - y * (⌊x / y⌋ : ℝ) = y * (x / y - (⌊x / y⌋ : ℝ)) := by
      rw [mul_sub, hxy]
    rw [he]
    constructor
    · have := mul_nonneg hy.le (sub_nonneg.2 h1)
      linarith
    · have := (mul_lt_mul_left hy).2 (show x / y - (⌊x / y⌋ : ℝ) < 1 by linarith)
      linarith [this]
  · have h1 : x / y ≤ ((⌈x / y⌉ : ℝ)) := Int.le_ceil _
    have h2 : ((⌈x / y⌉ : ℝ)) < x / y + 1 := Int.ceil_lt_add_one _
    have he : x - y * (⌈x / y⌉ : ℝ) = y * (x / y - (⌈x / y⌉ : ℝ)) := by
      rw [mul_sub, hxy]
    rw [he]
    constructor
    · have := (mul_lt_mul_left hy).2 (show (-1 : ℝ) < x / y - (⌈x / y⌉ : ℝ) by linarith)
      linarith [this]
    · have := mul_nonpos_of_nonneg_of_nonpos hy.le (sub_nonpos.2 h1)
      linarith

lemma cFmod_nonneg_lt (x y : ℝ) (hx : 0 ≤ x) (hy : 0 < y) :
    0 ≤ cFmod x y ∧ cFmod x y < y := by
  have hlt := (cFmod_bounds x y hy).2
  refine ⟨?_, hlt⟩
  unfold cFmod ctrunc
  have hy' : y ≠ 0 := ne_of_gt hy
  have hxy : y * (x / y) = x := by field_simp
  have hdiv : 0 ≤ x / y := div_nonneg hx hy.le
  rw [if_pos hdiv]
  have h1 : ((⌊x / y⌋ : ℝ)) ≤ x / y := Int.floor_le _
  have he : x - y * (⌊x / y⌋ : ℝ) = y * (x / y - (⌊x / y⌋ : ℝ)) := by
    rw [mul_sub, hxy]
  rw [he]
  exact mul_nonneg hy.le (sub_nonneg.2 h1)

-- r2d of an arccos value lies between 0 and 180 degrees.

lemma r2d_arccos_nonneg (x : ℝ) : 0 ≤ r2d (Real.arccos x) := by
  unfold r2d dpi
  have h := Real.arccos_nonneg x
  have hpi : (0 : ℝ) < 2 * Real.pi := by positivity
  positivity

lemma r2d_arccos_le (x : ℝ) : r2d (Real.arccos x) ≤ 180 := by
  unfold r2d dpi
  have h := Real.arccos_le_pi x
  have hpi : (0 : ℝ) < 2 * Real.pi := by positivity
  rw [div_le_iff₀ hpi]
  nlinarith [Real.pi_pos]

-- Azimuth and elevation bounds for a single run of the solar equations.

lemma noaa_az_bounds (s : NoaaState) :
    0 ≤ (noaa_eq s).az_deg ∧ (noaa_eq s).az_deg < 360 := by
  rw [az_formula]
  split_ifs
  · have h1 := r2d_arccos_nonneg (azcosArg s.lat_deg (noaa_eq s).zangle_deg (noaa_eq s).decl_deg)
    exact cFmod_nonneg_lt _ 360 (by linarith) (by norm_num)
  · have h2 := r2d_arccos_le (azcosArg s.lat_deg (noaa_eq s).zangle_deg (noaa_eq s).decl_deg)
    exact cFmod_nonneg_lt _ 360 (by linarith) (by norm_num)

lemma noaa_elev_bounds (s : NoaaState) :
    -90 ≤ (noaa_eq s).elev_deg ∧ (noaa_eq s).elev_deg ≤ 90 := by
  rw [elev_formula, zangle_formula]
  have h1 := r2d_arccos_nonneg (zcosArg s.lat_deg (noaa_eq s).decl_deg (noaa_eq s).hrangle_deg)
  have h2 := r2d_arccos_le (zcosArg s.lat_deg (noaa_eq s).decl_deg (noaa_eq s).hrangle_deg)
  constructor <;> linarith

lemma load_length (s : NoaaState) : (load s).length = 1440 := by
  unfold load
  simp

lemma load_get (s : NoaaState) (i : ℕ) (hi : i < 1440) :
    (load s).get ⟨i, lt_of_lt_of_eq hi (load_length s).symm⟩ =
      { solarmin := (tableState s i).soltime_min
        elev := (tableState s i).elev_deg
        elevc := (tableState s i).elevc_deg
        azim := (tableState s i).az_deg
        sunlong := (tableState s i).truelong_deg } := by
  unfold load
  rw [List.get_eq_getElem]
  rw [List.getElem_map]
  rw [List.getElem_range]


-- At latitude 90 both spherical acos arguments lie inside [-1, 1]: the
-- zenith argument collapses to a sine and the azimuth argument to a
-- division by zero (which the real model evaluates to 0).

lemma d2r_90 : d2r 90 = Real.pi / 2 := by
  unfold d2r dpi
  ring

lemma zcosArg_90 (a b : ℝ) : zcosArg 90 a b ∈ Set.Icc (-1 : ℝ) 1 := by
  unfold zcosArg
  rw [d2r_90, Real.sin_pi_div_two, Real.cos_pi_div_two]
  simp only [one_mul, zero_mul, add_zero, Set.mem_Icc]
  exact ⟨Real.neg_one_le_sin _, Real.sin_le_one _⟩

lemma azcosArg_90 (a b : ℝ) : azcosArg 90 a b ∈ Set.Icc (-1 : ℝ) 1 := by
  unfold azcosArg
  rw [d2r_90, Real.cos_pi_div_two]
  simp only [zero_mul, div_zero, Set.mem_Icc]
  constructor <;> norm_num

-- The code's nested refraction conditional agrees with the spec's fully
-- bracketed piecewise selection.

lemma refractRaw_eq_spec (e : ℝ) : refractRaw e = specRefract e := by
  unfold refractRaw specRefract
  rcases lt_or_le 85 e with h85 | h85
  · rw [if_pos h85, if_pos h85]
  · rw [if_neg (not_lt.2 h85), if_neg (not_lt.2 h85)]
    rcases lt_or_le 5 e with h5 | h5
    · rw [if_pos h5, if_pos (show 5 < e ∧ e ≤ 85 from ⟨h5, h85⟩)]
    · rw [if_neg (not_lt.2 h5),
        if_neg (show ¬(5 < e ∧ e ≤ 85) from fun hc => (not_lt.2 h5) hc.1)]
      rcases lt_or_le (-0.575 : ℝ) e with h0 | h0
      · rw [if_pos h0, if_pos (show (-0.575 : ℝ) < e ∧ e ≤ 5 from ⟨h0, h5⟩)]
      · rw [if_neg (not_lt.2 h0),
          if_neg (show ¬((-0.575 : ℝ) < e ∧ e ≤ 5) from fun hc => (not_lt.2 h0) hc.1)]

-- When no entry of a builtin table matches, the cascade returns false and
-- leaves the out-parameters unchanged.

lemma lookupBuiltin_all_miss (dstOff : ℝ) (loc : String) :
    ∀ t : List BuiltinEntry,
      (t.all fun e => e.names.all fun n => !(strieq n loc)) = true →
      ∀ st : Coord, lookupBuiltin dstOff st t loc = ⟨false, st.la, st.lo, st.tz⟩ := by
  intro t
  induction t with
  | nil => intro _ st; rfl
  | cons e rest ih =>
      intro h st
      rw [List.all_cons, Bool.and_eq_true] at h
      have hcond : (e.names.any fun n => strieq n loc) = false := by
        rw [List.any_eq_false]
        intro n hn
        have hall := (List.all_eq_true.mp h.1) n hn
        simp only [Bool.not_eq_true'] at hall
        simp [hall]
      unfold lookupBuiltin
      rw [hcond]
      simp only [Bool.false_eq_true, if_false]
      exact ih h.2 st

/-- C1 (counterexample): with the record-list file present but containing
no line matching "Helsinki", `setcoord` does not fall back to the built-in
table: it returns success carrying the values parsed from the last scanned
record (65, 25.5, 2), which are not Helsinki's built-in coordinates
(60.16, 24.83). -/
theorem c1_counterexample :
    setcoord 0 (some cnfOulu) "Helsinki" 0 0 0 = ⟨true, 65, 25.5, 2⟩ ∧
    (65 : ℝ) ≠ 60.16 ∧ (25.5 : ℝ) ≠ 24.83 := by
  have h : strieq "Oulu" "Helsinki" = false := by decide
  refine ⟨?_, by norm_num, by norm_num⟩
  simp [setcoord, cnfOulu, scanCnf, h]

/-- C1 (amended): only when the record-list file is absent does resolution
fall back to the built-in table of named locations; then "Helsinki"
resolves to its built-in coordinates (60.16, 24.83) and timezone 2 plus
the EU DST offset, whatever values the out-parameters held before. -/
theorem c1_builtin_fallback (dstOff la lo tz : ℝ) :
    setcoord dstOff none "Helsinki" la lo tz = ⟨true, 60.16, 24.83, 2 + dstOff⟩ := by
  have h : (["Helsinki"].any fun n => strieq n "Helsinki") = true := by decide
  simp [setcoord, lookupBuiltin, builtinTable, h]

/-- C4 (counterexample): when the record-list file exists, resolving
"unknownplace" does not report failure: `setcoord` returns true after the
scan even though no line matched, so the claim's "whether or not the
record-list file exists" fails. -/
theorem c4_counterexample :
    (setcoord 0 (some cnfOulu) "unknownplace" 0 0 0).found = true := by
  have h : strieq "Oulu" "unknownplace" = false := by decide
  simp [setcoord, cnfOulu, scanCnf, h]

/-- C4 (amended): when the record-list file is absent, resolving
"unknownplace" (present in no source) reports failure, and `main`'s
location branch then prints the error, usage and known-location
diagnostics and exits with status 1. -/
theorem c4_unknown_without_file (dstOff la lo tz : ℝ) :
    (setcoord dstOff none "unknownplace" la lo tz).found = false ∧
    mainWithLoc dstOff none "unknownplace" = ⟨1, true⟩ := by
  have hall : (builtinTable.all fun e => e.names.all fun n => !(strieq n "unknownplace")) = true := by
    decide
  constructor
  · show (setcoord dstOff none "unknownplace" la lo tz).found = false
    simp only [setcoord]
    rw [lookupBuiltin_all_miss dstOff "unknownplace" builtinTable hall ⟨la, lo, tz⟩]
  · unfold mainWithLoc
    simp only [setcoord]
    simp only [lookupBuiltin_all_miss dstOff "unknownplace" builtinTable hall ⟨0, 0, 0⟩]
    simp

/-- C2 (counterexample): at the input state `sNegLong` (day fraction 0 in
[0,1), timezone 0, date 0, longitude chosen so that the pre-mod argument
is exactly -720), the computed true solar time is -720 minutes, outside
[0,1440): C's fmod keeps the dividend's sign. -/
theorem c2_counterexample :
    (noaa_eq sNegLong).soltime_min = -720 ∧
    ¬ ((noaa_eq sNegLong).soltime_min ∈ Set.Ico (0 : ℝ) 1440) ∧
    sNegLong.wtime_day ∈ Set.Ico (0 : ℝ) 1 := by
  have h1 : (noaa_eq sNegLong).eqoftime_min = eqot0 := by
    show (noaa_eq { s0 with long_deg := (-720 - eqot0) / 4 }).eqoftime_min = eqot0
    rw [eqoftime_indep_long]
    rfl
  have hw : sNegLong.wtime_day = 0 := rfl
  have hsol : (noaa_eq sNegLong).soltime_min = -720 := by
    rw [soltime_formula, h1]
    have hlo : sNegLong.long_deg = (-720 - eqot0) / 4 := rfl
    have htz : sNegLong.timezone_hr = 0 := rfl
    rw [hw, hlo, htz]
    have harg : (0 : ℝ) * 1440 + eqot0 + 4 * ((-720 - eqot0) / 4) - 60 * 0 = -720 := by
      ring
    rw [harg]
    unfold cFmod ctrunc
    have hq : ((-720 : ℝ) / 1440) = -(1 / 2) := by norm_num
    rw [hq, if_neg (by norm_num)]
    have hc : ⌈(-(1 / 2) : ℝ)⌉ = 0 := by
      rw [Int.ceil_eq_zero_iff]
      constructor <;> norm_num
    rw [hc]
    norm_num
  refine ⟨hsol, ?_, ?_⟩
  · rw [hsol]
    simp [Set.mem_Ico]
  · rw [hw]
    simp [Set.mem_Ico]

/-- C2 (amended): the true solar time equals the stated formula wrapped by
C's fmod and lies in the open interval (-1440, 1440); it is only
guaranteed in [0,1440) when the pre-mod argument is nonnegative, since
C's fmod carries the dividend's sign. -/
theorem c2_soltime_range (s : NoaaState) :
    (noaa_eq s).soltime_min =
      cFmod (s.wtime_day * 1440 + (noaa_eq s).eqoftime_min + 4 * s.long_deg - 60 * s.timezone_hr) 1440 ∧
    -1440 < (noaa_eq s).soltime_min ∧ (noaa_eq s).soltime_min < 1440 := by
  refine ⟨soltime_formula s, ?_, ?_⟩
  · rw [soltime_formula]
    exact (cFmod_bounds _ 1440 (by norm_num)).1
  · rw [soltime_formula]
    exact (cFmod_bounds _ 1440 (by norm_num)).2

/-- C6 (counterexample): at the input state `sZeroSol` the solar time is
exactly 0, so the folded hour angle is 0/4 - 180 = -180, which is not in
the claimed interval (-180, 180]. -/
theorem c6_counterexample :
    (noaa_eq sZeroSol).hrangle_deg = -180 ∧
    ¬ ((noaa_eq sZeroSol).hrangle_deg ∈ Set.Ioc (-180 : ℝ) 180) := by
  have h1 : (noaa_eq sZeroSol).eqoftime_min = eqot0 := by
    show (noaa_eq { s0 with long_deg := -eqot0 / 4 }).eqoftime_min = eqot0
    rw [eqoftime_indep_long]
    rfl
  have hsol : (noaa_eq sZeroSol).soltime_min = 0 := by
    rw [soltime_formula, h1]
    have hw : sZeroSol.wtime_day = 0 := rfl
    have hlo : sZeroSol.long_deg = -eqot0 / 4 := rfl
    have htz : sZeroSol.timezone_hr = 0 := rfl
    rw [hw, hlo, htz]
    have harg : (0 : ℝ) * 1440 + eqot0 + 4 * (-eqot0 / 4) - 60 * 0 = 0 := by ring
    rw [harg]
    unfold cFmod ctrunc
    norm_num
  have hh : (noaa_eq sZeroSol).hrangle_deg = -180 := by
    rw [hrangle_formula, hsol]
    norm_num
  refine ⟨hh, ?_⟩
  rw [hh]
  simp [Set.mem_Ioc]

/-- C6 (amended): the hour angle equals soltime/4 + 180 when soltime/4 is
negative and soltime/4 - 180 otherwise, and the folded value lies in
[-180, 180): the left end is attained (at solar time exactly 0) and +180
is never reached. -/
theorem c6_hrangle_fold (s : NoaaState) :
    (noaa_eq s).hrangle_deg =
      (if (noaa_eq s).soltime_min / 4 < 0 then (noaa_eq s).soltime_min / 4 + 180
       else (noaa_eq s).soltime_min / 4 - 180) ∧
    -180 ≤ (noaa_eq s).hrangle_deg ∧ (noaa_eq s).hrangle_deg < 180 := by
  have hs1 : -1440 < (noaa_eq s).soltime_min := by
    rw [soltime_formula]
    exact (cFmod_bounds _ 1440 (by norm_num)).1
  have hs2 : (noaa_eq s).soltime_min < 1440 := by
    rw [soltime_formula]
    exact (cFmod_bounds _ 1440 (by norm_num)).2
  refine ⟨hrangle_formula s, ?_, ?_⟩ <;>
  · rw [hrangle_formula]
    split_ifs with h <;> linarith

/-- C3 (counterexample): on the last Sunday of March 2024 (2024-03-31) at
adjusted local hour 2, the code returns offset 0 while the claim's rule
(active when equal to the March date with local hour > 1) demands 1: the
source compares against hour 3, not hour 1. -/
theorem c3_counterexample :
    ¬ ((setdst_eu ⟨2024, 3, 31⟩ 2 = 1) ↔ specDstActive ⟨2024, 3, 31⟩ 2) := by
  decide

/-- C3 (amended): the European DST offset is 1 exactly when today is
strictly between the last Sunday of March and the last Sunday of October,
or equal to the March date with adjusted local hour > 3, or equal to the
October date with adjusted local hour ≤ 3; it is 0 otherwise (hence 0
strictly after the October date, and 0 on it once the hour exceeds 3). -/
theorem c3_dst_rule (today : QDate) (hour : ℕ) :
    setdst_eu today hour = 1 ↔
      ((dateLt (lastSundayDate today.year 3) today ∧
          dateLt today (lastSundayDate today.year 10)) ∨
       (today = lastSundayDate today.year 3 ∧ 3 < hour) ∨
       (today = lastSundayDate today.year 10 ∧ hour ≤ 3)) := by
  obtain ⟨y, m, d⟩ := today
  simp only [setdst_eu, lastSundayDate, dateLt, QDate.mk.injEq]
  split_ifs <;> (try simp only [false_iff, true_iff, true_and] at *) <;> omega

/-- C9: for any year, any valid day of month and any local hour, the DST
offset is 0 on a January date and 1 on a July date. -/
theorem c9_months (y day hour : ℕ) (h1 : 1 ≤ day) (h2 : day ≤ 31) :
    setdst_eu ⟨y, 1, day⟩ hour = 0 ∧ setdst_eu ⟨y, 7, day⟩ hour = 1 := by
  constructor <;>
  · simp only [setdst_eu, lastSundayDate, dateLt, QDate.mk.injEq]
    split_ifs <;> (try simp only [false_iff, true_iff, true_and] at *) <;> omega

/-- C9 (witness): instantiation at year 2024, day 15, hour 10. -/
theorem c9_months_witness :
    (1 ≤ 15 ∧ 15 ≤ 31) ∧
    setdst_eu ⟨2024, 1, 15⟩ 10 = 0 ∧ setdst_eu ⟨2024, 7, 15⟩ 10 = 1 :=
  ⟨⟨by decide, by decide⟩, c9_months 2024 15 10 (by decide) (by decide)⟩

/-- C5: for every built day table and minute index i < 1440, provided the
two inverse-trigonometric arguments of that sample (the zenith acos
argument and the azimuth acos argument) lie in the arccos domain [-1,1],
the stored azimuth lies in [0, 360) and the stored elevation in
[-90, 90]. -/
theorem c5_table_bounds (s : NoaaState) (i : ℕ) (hi : i < 1440)
    (hz : zcosArg s.lat_deg (tableState s i).decl_deg (tableState s i).hrangle_deg ∈
      Set.Icc (-1 : ℝ) 1)
    (ha : azcosArg s.lat_deg (tableState s i).zangle_deg (tableState s i).decl_deg ∈
      Set.Icc (-1 : ℝ) 1) :
    0 ≤ ((load s).get ⟨i, lt_of_lt_of_eq hi (load_length s).symm⟩).azim ∧
    ((load s).get ⟨i, lt_of_lt_of_eq hi (load_length s).symm⟩).azim < 360 ∧
    -90 ≤ ((load s).get ⟨i, lt_of_lt_of_eq hi (load_length s).symm⟩).elev ∧
    ((load s).get ⟨i, lt_of_lt_of_eq hi (load_length s).symm⟩).elev ≤ 90 := by
  rw [load_get s i hi]
  have haz := noaa_az_bounds { s with wtime_day := (i : ℝ) / 1440 }
  have hel := noaa_elev_bounds { s with wtime_day := (i : ℝ) / 1440 }
  exact ⟨haz.1, haz.2, hel.1, hel.2⟩

/-- C5 (witness): at latitude 90 both domain hypotheses hold for minute 0,
and the stored azimuth and elevation of that sample are in range. -/
theorem c5_table_bounds_witness :
    (zcosArg s90.lat_deg (tableState s90 0).decl_deg (tableState s90 0).hrangle_deg ∈
      Set.Icc (-1 : ℝ) 1) ∧
    (azcosArg s90.lat_deg (tableState s90 0).zangle_deg (tableState s90 0).decl_deg ∈
      Set.Icc (-1 : ℝ) 1) ∧
    (0 ≤ ((load s90).get ⟨0, lt_of_lt_of_eq (by norm_num) (load_length s90).symm⟩).azim ∧
     ((load s90).get ⟨0, lt_of_lt_of_eq (by norm_num) (load_length s90).symm⟩).azim < 360 ∧
     -90 ≤ ((load s90).get ⟨0, lt_of_lt_of_eq (by norm_num) (load_length s90).symm⟩).elev ∧
     ((load s90).get ⟨0, lt_of_lt_of_eq (by norm_num) (load_length s90).symm⟩).elev ≤ 90) := by
  have hlat : s90.lat_deg = 90 := rfl
  have hz : zcosArg s90.lat_deg (tableState s90 0).decl_deg (tableState s90 0).hrangle_deg ∈
      Set.Icc (-1 : ℝ) 1 := by
    rw [hlat]
    exact zcosArg_90 _ _
  have ha : azcosArg s90.lat_deg (tableState s90 0).zangle_deg (tableState s90 0).decl_deg ∈
      Set.Icc (-1 : ℝ) 1 := by
    rw [hlat]
    exact azcosArg_90 _ _
  exact ⟨hz, ha, c5_table_bounds s90 0 (by norm_num) hz ha⟩

/-- C7: the refraction correction used by the solar equations is selected
by the spec's elevation brackets (0 above 85 degrees, the tangent series
on (5, 85], the quartic polynomial on (-0.575, 5], and -20.772/tan below),
is divided by 3600 to convert arc-seconds to degrees, and the corrected
elevation equals elevation plus refraction. -/
theorem c7_refraction (s : NoaaState) :
    (∀ e : ℝ, refractRaw e = specRefract e) ∧
    (noaa_eq s).refract_deg = specRefract ((noaa_eq s).elev_deg) / 3600 ∧
    (noaa_eq s).elevc_deg = (noaa_eq s).elev_deg + (noaa_eq s).refract_deg := by
  refine ⟨refractRaw_eq_spec, ?_, elevc_formula s⟩
  rw [refract_formula, refractRaw_eq_spec]

/-- C8: the built day table has exactly 1440 entries, and the entry at
each index i is produced by one solar-position computation with day
fraction i/1440, its five output fields (true solar time, elevation,
corrected elevation, azimuth, true longitude) stored at index i. -/
theorem c8_table (s : NoaaState) :
    (load s).length = 1440 ∧
    ∀ i : Fin 1440,
      (load s).get ⟨(i : ℕ), lt_of_lt_of_eq i.isLt (load_length s).symm⟩ =
        { solarmin := (noaa_eq { s with wtime_day := ((i : ℕ) : ℝ) / 1440 }).soltime_min
          elev := (noaa_eq { s with wtime_day := ((i : ℕ) : ℝ) / 1440 }).elev_deg
          elevc := (noaa_eq { s with wtime_day := ((i : ℕ) : ℝ) / 1440 }).elevc_deg
          azim := (noaa_eq { s with wtime_day := ((i : ℕ) : ℝ) / 1440 }).az_deg
          sunlong := (noaa_eq { s with wtime_day := ((i : ℕ) : ℝ) / 1440 }).truelong_deg } :=
  ⟨load_length s, fun i => load_get s (i : ℕ) i.isLt⟩

/-- C10: the solar-position computation reads only its five inputs
(latitude, longitude, base timezone, calendar day number, day fraction)
and leaves them unchanged: the five input fields survive the call, and
two states agreeing on those five inputs produce identical values in
every derived output variable. -/
theorem c10_frame (s1 s2 : NoaaState)
    (h1 : s1.lat_deg = s2.lat_deg) (h2 : s1.long_deg = s2.long_deg)
    (h3 : s1.timezone_hr = s2.timezone_hr) (h4 : s1.date_d = s2.date_d)
    (h5 : s1.wtime_day = s2.wtime_day) :
    ((noaa_eq s1).lat_deg = s1.lat_deg ∧
     (noaa_eq s1).long_deg = s1.long_deg ∧
     (noaa_eq s1).timezone_hr = s1.timezone_hr ∧
     (noaa_eq s1).date_d = s1.date_d ∧
     (noaa_eq s1).wtime_day = s1.wtime_day) ∧
    ((noaa_eq s1).jday = (noaa_eq s2).jday ∧
     (noaa_eq s1).jcen = (noaa_eq s2).jcen ∧
     (noaa_eq s1).gmlong_deg = (noaa_eq s2).gmlong_deg ∧
     (noaa_eq s1).gmanom_deg = (noaa_eq s2).gmanom_deg ∧
     (noaa_eq s1).eccent = (noaa_eq s2).eccent ∧
     (noaa_eq s1).eqofctr = (noaa_eq s2).eqofctr ∧
     (noaa_eq s1).truelong_deg = (noaa_eq s2).truelong_deg ∧
     (noaa_eq s1).trueanom_deg = (noaa_eq s2).trueanom_deg ∧
     (noaa_eq s1).radvect_au = (noaa_eq s2).radvect_au ∧
     (noaa_eq s1).applong_deg = (noaa_eq s2).applong_deg ∧
     (noaa_eq s1).moe_deg = (noaa_eq s2).moe_deg ∧
     (noaa_eq s1).ocorr_deg = (noaa_eq s2).ocorr_deg ∧
     (noaa_eq s1).rtasc_deg = (noaa_eq s2).rtasc_deg ∧
     (noaa_eq s1).decl_deg = (noaa_eq s2).decl_deg ∧
     (noaa_eq s1).var_y = (noaa_eq s2).var_y ∧
     (noaa_eq s1).eqoftime_min = (noaa_eq s2).eqoftime_min ∧
     (noaa_eq s1).ha_rise_deg = (noaa_eq s2).ha_rise_deg ∧
     (noaa_eq s1).noon_lst = (noaa_eq s2).noon_lst ∧
     (noaa_eq s1).rise_lst = (noaa_eq s2).rise_lst ∧
     (noaa_eq s1).set_lst = (noaa_eq s2).set_lst ∧
     (noaa_eq s1).lightdur_min = (noaa_eq s2).lightdur_min ∧
     (noaa_eq s1).soltime_min = (noaa_eq s2).soltime_min ∧
     (noaa_eq s1).hrangle_deg = (noaa_eq s2).hrangle_deg ∧
     (noaa_eq s1).zangle_deg = (noaa_eq s2).zangle_deg ∧
     (noaa_eq s1).elev_deg = (noaa_eq s2).elev_deg ∧
     (noaa_eq s1).refract_deg = (noaa_eq s2).refract_deg ∧
     (noaa_eq s1).elevc_deg = (noaa_eq s2).elevc_deg ∧
     (noaa_eq s1).az_deg = (noaa_eq s2).az_deg) := by
  refine ⟨⟨rfl, rfl, rfl, rfl, rfl⟩, ?_⟩
  unfold noaa_eq
  rw [h1, h2, h3, h4, h5]
  exact ⟨rfl, rfl, rfl, rfl, rfl, rfl, rfl, rfl, rfl, rfl, rfl, rfl, rfl, rfl, rfl, rfl, rfl, rfl, rfl, rfl, rfl, rfl, rfl, rfl, rfl, rfl, rfl, rfl⟩

/-- C10 (witness): instantiation at the zero-initialised state. -/
theorem c10_frame_witness :
    ((noaa_eq s0).lat_deg = s0.lat_deg ∧
     (noaa_eq s0).long_deg = s0.long_deg ∧
     (noaa_eq s0).timezone_hr = s0.timezone_hr ∧
     (noaa_eq s0).date_d = s0.date_d ∧
     (noaa_eq s0).wtime_day = s0.wtime_day) ∧
    ((noaa_eq s0).jday = (noaa_eq s0).jday ∧
     (noaa_eq s0).jcen = (noaa_eq s0).jcen ∧
     (noaa_eq s0).gmlong_deg = (noaa_eq s0).gmlong_deg ∧
     (noaa_eq s0).gmanom_deg = (noaa_eq s0).gmanom_deg ∧
     (noaa_eq s0).eccent = (noaa_eq s0).eccent ∧
     (noaa_eq s0).eqofctr = (noaa_eq s0).eqofctr ∧
     (noaa_eq s0).truelong_deg = (noaa_eq s0).truelong_deg ∧
     (noaa_eq s0).trueanom_deg = (noaa_eq s0).trueanom_deg ∧
     (noaa_eq s0).radvect_au = (noaa_eq s0).radvect_au ∧
     (noaa_eq s0).applong_deg = (noaa_eq s0).applong_deg ∧
     (noaa_eq s0).moe_deg = (noaa_eq s0).moe_deg ∧
     (noaa_eq s0).ocorr_deg = (noaa_eq s0).ocorr_deg ∧
     (noaa_eq s0).rtasc_deg = (noaa_eq s0).rtasc_deg ∧
     (noaa_eq s0).decl_deg = (noaa_eq s0).decl_deg ∧
     (noaa_eq s0).var_y = (noaa_eq s0).var_y ∧
     (noaa_eq s0).eqoftime_min = (noaa_eq s0).eqoftime_min ∧
     (noaa_eq s0).ha_rise_deg = (noaa_eq s0).ha_rise_deg ∧
     (noaa_eq s0).noon_lst = (noaa_eq s0).noon_lst ∧
     (noaa_eq s0).rise_lst = (noaa_eq s0).rise_lst ∧
     (noaa_eq s0).set_lst = (noaa_eq s0).set_lst ∧
     (noaa_eq s0).lightdur_min = (noaa_eq s0).lightdur_min ∧
     (noaa_eq s0).soltime_min = (noaa_eq s0).soltime_min ∧
     (noaa_eq s0).hrangle_deg = (noaa_eq s0).hrangle_deg ∧
     (noaa_eq s0).zangle_deg = (noaa_eq s0).zangle_deg ∧
     (noaa_eq s0).elev_deg = (noaa_eq s0).elev_deg ∧
     (noaa_eq s0).refract_deg = (noaa_eq s0).refract_deg ∧
     (noaa_eq s0).elevc_deg = (noaa_eq s0).elevc_deg ∧
     (noaa_eq s0).az_deg = (noaa_eq s0).az_deg) :=
  c10_frame s0 s0 rfl rfl rfl rfl rfl
